import Mathlib

/-!
Verification of the surface-control binding layer
(`src/ndk/src/surface_control.rs`) against its natural-language
specification.  The Rust code is a thin safe wrapper over the Android
`ASurfaceControl` / `ASurfaceTransaction` / `ASurfaceTransactionStats`
native API.  We embed the wrapper functions shallowly: each wrapper is a
pure Lean function from its (already-marshalled) inputs, including the
value the native call would return where the wrapper only transforms it,
to the list of native calls it emits and the value it returns.  The
external compositor itself is not part of the repository; where a claim
depends on compositor behaviour (callback invocation discipline, the
panic-abort helper living outside `src/`), the corresponding definition
is modelled from the specification and clearly marked as such.
-/

/-- The `Visibility` enum from the source (`repr(i8)`): `Hide = 0`,
`Show = 1`. -/
inductive Visibility where
  | Hide
  | Show
deriving DecidableEq

/-- `IntoPrimitive` conversion for `Visibility` as derived in the source:
`Hide = 0`, `Show = 1`. -/
def Visibility.toInt : Visibility → Int
  | .Hide => 0
  | .Show => 1

/-- `SurfaceControl` wraps a `NonNull<ffi::ASurfaceControl>`: the raw
pointer, guaranteed nonzero.  Pointers are modelled as natural numbers
with `0` for the null pointer. -/
structure SurfaceControl where
  ptr : Nat
  ptr_ne : ptr ≠ 0

/-- `SurfaceControl::create` / `create_from_window`: the native call
returns a raw pointer; `NonNull::new(ptr)?` maps the null result to
`None` and wraps any other value.  `raw` is the pointer returned by the
native creation call. -/
def SurfaceControl.create (raw : Nat) : Option SurfaceControl :=
  if h : raw = 0 then none else some ⟨raw, h⟩

/-- `SurfaceTransaction` wraps a `NonNull<ffi::ASurfaceTransaction>`. -/
structure SurfaceTransaction where
  ptr : Nat
  ptr_ne : ptr ≠ 0

/-- `SurfaceTransaction::new`: `NonNull::new(ASurfaceTransaction_create())`
maps a null result of the native constructor to `None`. -/
def SurfaceTransaction.new (raw : Nat) : Option SurfaceTransaction :=
  if h : raw = 0 then none else some ⟨raw, h⟩

/-- Native calls emitted by the wrapper functions, with the arguments
relevant to the claims.  Scale factors (`f32` in the source, merely
forwarded, never computed with) are modelled as rationals. -/
inductive FfiCall where
  | applyTx (tx : Nat)
  | deleteTx (tx : Nat)
  | setOnComplete (tx ctx : Nat)
  | setOnCommit (tx ctx : Nat)
  | setVisibility (tx sc : Nat) (v : Int)
  | setZOrder (tx sc : Nat) (z : Int)
  | setBuffer (tx sc buf : Nat) (fence : Int)
  | setScale (tx sc : Nat) (x y : Rat)
deriving DecidableEq

/-- Error taxonomy of the specification for staging calls (invalid
transaction, invalid node, invalid argument).  The wrapper never
constructs one of these: every staging function in the source returns
`()`. -/
inductive StageError where
  | invalidTransaction
  | invalidNode
  | invalidArgument
deriving DecidableEq

/-- `SurfaceTransaction::set_visibility` (source lines 214-222):
unconditionally forwards to `ASurfaceTransaction_setVisibility` and
returns `()`; the second component is the error the call returns to the
caller, which is always `none`. -/
def SurfaceTransaction.set_visibility (t : SurfaceTransaction)
    (c : SurfaceControl) (v : Visibility) :
    List FfiCall × Option StageError :=
  ([.setVisibility t.ptr c.ptr v.toInt], none)

/-- `SurfaceTransaction::set_z_order` (source lines 230-238):
unconditionally forwards to `ASurfaceTransaction_setZOrder`. -/
def SurfaceTransaction.set_z_order (t : SurfaceTransaction)
    (c : SurfaceControl) (z : Int) : List FfiCall × Option StageError :=
  ([.setZOrder t.ptr c.ptr z], none)

/-- The fence argument passed to `ASurfaceTransaction_setBuffer`
(source lines 258-261): `Some(fd) => fd.into_raw_fd()`, `None => -1`.
Owned file descriptors are nonnegative, hence modelled as naturals. -/
def fenceArg : Option Nat → Int
  | some fd => (fd : Int)
  | none => -1

/-- `SurfaceTransaction::set_buffer` (source lines 247-264):
unconditionally forwards buffer and fence argument to
`ASurfaceTransaction_setBuffer`. -/
def SurfaceTransaction.set_buffer (t : SurfaceTransaction)
    (c : SurfaceControl) (buf : Nat) (acquire_fence_fd : Option Nat) :
    List FfiCall × Option StageError :=
  ([.setBuffer t.ptr c.ptr buf (fenceArg acquire_fence_fd)], none)

/-- `SurfaceTransaction::set_scale` (source lines 385-396):
unconditionally forwards both scale factors to
`ASurfaceTransaction_setScale`; there is no validation in the wrapper. -/
def SurfaceTransaction.set_scale (t : SurfaceTransaction)
    (c : SurfaceControl) (x_scale y_scale : Rat) :
    List FfiCall × Option StageError :=
  ([.setScale t.ptr c.ptr x_scale y_scale], none)

/-- `SurfaceTransaction::apply` (source lines 128-131): borrows the
transaction and emits exactly one `ASurfaceTransaction_apply` call. -/
def SurfaceTransaction.apply (t : SurfaceTransaction) : List FfiCall :=
  [.applyTx t.ptr]

/-- `Drop for SurfaceTransaction` (source lines 666-671): emits exactly
one `ASurfaceTransaction_delete` call. -/
def SurfaceTransaction.drop (t : SurfaceTransaction) : List FfiCall :=
  [.deleteTx t.ptr]

/-- `SurfaceTransaction::set_on_complete` (source lines 137-160): one
native registration of the trampoline with the boxed-closure context
pointer. -/
def SurfaceTransaction.set_on_complete (t : SurfaceTransaction)
    (ctx : Nat) : List FfiCall :=
  [.setOnComplete t.ptr ctx]

/-- `SurfaceTransaction::set_on_commit` (source lines 167-190): one
native registration of the trampoline with the boxed-closure context
pointer. -/
def SurfaceTransaction.set_on_commit (t : SurfaceTransaction)
    (ctx : Nat) : List FfiCall :=
  [.setOnCommit t.ptr ctx]

/-- `SurfaceTransactionStats::present_fence_fd` (source lines 766-772):
the native call returns a raw descriptor; the wrapper maps `-1` to
`None` and wraps any other value.  `nativeFd` is the value returned by
`ASurfaceTransactionStats_getPresentFenceFd`. -/
def present_fence_fd (nativeFd : Int) : Option Int :=
  if nativeFd = -1 then none else some nativeFd

/-- `SurfaceTransactionStats::previous_release_fence_fd` (source lines
836-847): same `-1 => None` mapping on the value returned by
`ASurfaceTransactionStats_getPreviousReleaseFenceFd`. -/
def previous_release_fence_fd (nativeFd : Int) : Option Int :=
  if nativeFd = -1 then none else some nativeFd

/-- `SurfaceTransactionStats::acquire_time` (source lines 806-813):
returns the native `i64` unchanged.  Per the source documentation the
native layer returns `-1` when no acquire fence was provided. -/
def acquire_time (nativeTime : Int) : Int :=
  nativeTime

/-- `SurfaceTransactionStats::latch_time` (source lines 752-756):
returns the native `i64` unchanged. -/
def latch_time (nativeTime : Int) : Int :=
  nativeTime

/-- Modelled from the spec: during the on-commit phase the native
present-fence and previous-release-fence queries fail; the source
documentation for `OnCommit` says querying them "will result in
failure", which at the raw-descriptor boundary is the `-1` sentinel. -/
def commitPhaseNativeFenceReturn : Int := -1

/-- Native return value when no fence exists (source documentation: "If
a device does not support present fences, a -1 will be returned"; "If
the fence is -1, the PREVIOUS buffer is already released"). -/
def noFenceNativeReturn : Int := -1

/- Concrete fixtures: a successfully created transaction and surface
control used to evaluate the embedding at concrete inputs. -/

/-- A concrete transaction handle (nonzero native pointer `1`). -/
def tx1 : SurfaceTransaction := ⟨1, Nat.one_ne_zero⟩

/-- A concrete surface-control handle (nonzero native pointer `2`). -/
def sc1 : SurfaceControl := ⟨2, by decide⟩

/- ===== Callback protocol (claims C1, C2, C7) ===== -/

/-- Observable callback invocations of one transaction. -/
inductive CbEvent where
  | commitFire
  | completeFire
deriving DecidableEq

/-- Modelled from the spec: the compositor, for one submitted
transaction, invokes the registered on-commit callback (if any) and then
the registered on-complete callback (if any), each exactly once
("invoking on-commit then (always after) on-complete, each exactly
once"); the source documentation for `set_on_commit` likewise states
"This callback will be invoked before the OnComplete callback".
The compositor is an external collaborator, not repository code. -/
def compositorEvents (onCommitRegistered onCompleteRegistered : Bool) :
    List CbEvent :=
  (if onCommitRegistered then [.commitFire] else []) ++
  (if onCompleteRegistered then [.completeFire] else [])

/-- `SurfaceTransactionStats` wraps a `NonNull<ffi::ASurfaceTransactionStats>`
(the trampolines build it with `NonNull::new(stats).unwrap()`). -/
structure SurfaceTransactionStats where
  ptr : Nat
  ptr_ne : ptr ≠ 0

/-- Outcome of running the user closure: it either returns normally or
panics. -/
inductive ClosureOutcome where
  | normal
  | panics
deriving DecidableEq

/-- What compositor-owned code observes at the native trampoline frame
boundary. -/
inductive BoundaryBehavior where
  | returns
  | aborts
  | unwinds
deriving DecidableEq

/-- Modelled from the spec: `crate::utils::abort_on_panic` is repository
code that is not under `src/`; per the spec a panic inside the closure
"must not propagate into compositor-owned code; it must terminate the
process" (abort-on-unwind-into-foreign-frame policy), so it runs the
closure, lets a normal return pass through, and turns an unwind into a
process abort. -/
def abort_on_panic (body : Unit → ClosureOutcome) : BoundaryBehavior :=
  match body () with
  | .normal => .returns
  | .panics => .aborts

/-- The `on_complete` trampoline (source lines 139-149): wraps the user
closure invocation in `abort_on_panic`. -/
def on_complete_trampoline
    (closure : SurfaceTransactionStats → ClosureOutcome)
    (stats : SurfaceTransactionStats) : BoundaryBehavior :=
  abort_on_panic (fun _ => closure stats)

/-- The `on_commit` trampoline (source lines 169-179): wraps the user
closure invocation in `abort_on_panic`. -/
def on_commit_trampoline
    (closure : SurfaceTransactionStats → ClosureOutcome)
    (stats : SurfaceTransactionStats) : BoundaryBehavior :=
  abort_on_panic (fun _ => closure stats)

/-- Heap accounting for the closure boxes handed to the native layer. -/
structure HeapCount where
  boxesAllocated : Nat
  boxesFreed : Nat
deriving DecidableEq

/-- Live (never reclaimed) closure boxes. -/
def liveBoxes (h : HeapCount) : Nat :=
  h.boxesAllocated - h.boxesFreed

/-- Heap effect of `set_on_complete` / `set_on_commit` (source lines
137-160, 167-190): `Box::new(func)` followed by `Box::into_raw(boxed)`
allocates the closure box and hands the raw pointer to the native layer;
nothing records it for later reclamation. -/
def register_callback_heap (h : HeapCount) : HeapCount :=
  { h with boxesAllocated := h.boxesAllocated + 1 }

/-- Heap effect of the trampolines firing (source lines 139-149,
169-179): the context pointer is cast back to `*mut OnComplete` and the
closure is called through it; there is no `Box::from_raw` and no drop,
so the box is not freed. -/
def trampoline_fire_heap (h : HeapCount) : HeapCount :=
  h

/-- Heap effect of `Drop for SurfaceTransaction` (source lines 666-671):
only `ASurfaceTransaction_delete` is called; the context box is not
freed. -/
def transaction_drop_heap (h : HeapCount) : HeapCount :=
  h

/-- One full submission cycle: register an on-complete callback, the
callback fires, the transaction is dropped. -/
def submitCycleHeap (h : HeapCount) : HeapCount :=
  transaction_drop_heap (trampoline_fire_heap (register_callback_heap h))

/- ===== Fence ownership (claims C6, C10) ===== -/

/-- Ownership state of one fence descriptor. -/
inductive FenceState where
  | clientOwned
  | nativeOwned
  | consumerOwned
  | closed
deriving DecidableEq

/-- A fence descriptor together with how many times `close` has run on
it. -/
structure FenceLedger where
  state : FenceState
  closeCount : Nat
deriving DecidableEq

/-- Operations of the public API that touch a fence descriptor. -/
inductive FenceOp where
  | setBufferMove
  | statsHandOut
  | dropOwnedFd
deriving DecidableEq

/-- One ownership step, from the source: `set_buffer` consumes the
`Option<OwnedFd>` by value and `into_raw_fd` relinquishes ownership to
the native layer without closing (source lines 258-261); the fence
queries wrap the raw descriptor in a fresh `OwnedFd` via `from_raw_fd`
(source lines 770, 845), transferring ownership to the consumer; the
`OwnedFd` drop closes the descriptor exactly once.  `none` means the
operation is not expressible in the safe API from that state (the Rust
move rules reject it: the caller no longer holds a value to close). -/
def fenceStep : FenceLedger → FenceOp → Option FenceLedger
  | ⟨.clientOwned, n⟩, .setBufferMove => some ⟨.nativeOwned, n⟩
  | ⟨.clientOwned, n⟩, .dropOwnedFd => some ⟨.closed, n + 1⟩
  | ⟨.nativeOwned, n⟩, .statsHandOut => some ⟨.consumerOwned, n⟩
  | ⟨.consumerOwned, n⟩, .dropOwnedFd => some ⟨.closed, n + 1⟩
  | _, _ => none

/-- Run a sequence of fence operations. -/
def fenceExec (s : FenceLedger) : List FenceOp → Option FenceLedger
  | [] => some s
  | op :: ops => match fenceStep s op with
    | none => none
    | some s2 => fenceExec s2 ops

/- ===== Transaction lifecycle (claim C9) ===== -/

/-- Client-side operations on one transaction object. -/
inductive TxOp where
  | applyOp
  | dropOp
deriving DecidableEq

/-- Liveness of the transaction object plus the log of native calls. -/
structure TxState where
  alive : Bool
  log : List FfiCall
deriving DecidableEq

/-- One lifecycle step, from the source: `apply` takes `&self` and only
emits `ASurfaceTransaction_apply` (source lines 128-131), leaving the
object untouched; `drop` emits `ASurfaceTransaction_delete` (source
lines 666-671) and consumes the object, after which no operation is
expressible (`none`). -/
def txStep (t : SurfaceTransaction) : TxState → TxOp → Option TxState
  | ⟨true, log⟩, .applyOp => some ⟨true, log ++ t.apply⟩
  | ⟨true, log⟩, .dropOp => some ⟨false, log ++ t.drop⟩
  | ⟨false, _⟩, _ => none

/-- Run a sequence of lifecycle operations. -/
def txExec (t : SurfaceTransaction) (s : TxState) :
    List TxOp → Option TxState
  | [] => some s
  | op :: ops => match txStep t s op with
    | none => none
    | some s2 => txExec t s2 ops

/- ===== Debug formatting of stats (claim C10) ===== -/

/-- Native stats queries issued by the wrapper. -/
inductive StatsQuery where
  | getLatchTime
  | getPresentFenceFd
  | getSurfaceControls
  | getAcquireTime (sc : Nat)
  | getPreviousReleaseFenceFd (sc : Nat)
deriving DecidableEq

/-- Queries performed, in order, by `impl fmt::Debug for
SurfaceTransactionStats` (source lines 710-745): the `latch_time`,
`present_fence_fd` and `surface_controls` fields, then for every surface
control in the stats its `acquire_time` and
`previous_release_fence_fd`.  `scs` is the list of surface-control
pointers returned by `surface_controls`. -/
def debug_fmt_queries (scs : List Nat) : List StatsQuery :=
  [.getLatchTime, .getPresentFenceFd, .getSurfaceControls] ++
  scs.flatMap (fun sc => [.getAcquireTime sc, .getPreviousReleaseFenceFd sc])

/-- Fence effect of Debug formatting on a fence the native layer still
owns: `&self.present_fence_fd()` (and likewise the per-node release
fence) builds a temporary `OwnedFd` out of the raw descriptor, which is
dropped, hence closed, when the formatter finishes with the field. -/
def debug_fmt_fence (s : FenceLedger) : Option FenceLedger :=
  fenceExec s [.statsHandOut, .dropOwnedFd]

/- ===== Claims ===== -/

/-- Claim C3 counterexample: on a commit-phase snapshot the native fence
queries return `-1` and `present_fence_fd` / `previous_release_fence_fd`
map that to `none` — exactly the value returned in the no-fence case —
rather than failing with an error distinguishable from the no-fence
case. -/
theorem c3_commit_phase_returns_none_cex :
    present_fence_fd commitPhaseNativeFenceReturn = none ∧
    previous_release_fence_fd commitPhaseNativeFenceReturn = none ∧
    present_fence_fd commitPhaseNativeFenceReturn =
      present_fence_fd noFenceNativeReturn :=
  ⟨rfl, rfl, rfl⟩

/-- Claim C3 (amended): on a commit-phase stats snapshot, calling
`present_fence_fd` or `previous_release_fence_fd` returns `None`, the
same value as the no-fence case; the commit-phase failure is not
distinguishable from the absence of a fence at this layer. -/
theorem c3_amended_phase_mismatch_maps_to_none :
    ∀ fd : Int, fd = commitPhaseNativeFenceReturn →
      present_fence_fd fd = none ∧
      previous_release_fence_fd fd = none ∧
      present_fence_fd fd = present_fence_fd noFenceNativeReturn ∧
      previous_release_fence_fd fd =
        previous_release_fence_fd noFenceNativeReturn := by
  intro fd h
  subst h
  exact ⟨rfl, rfl, rfl, rfl⟩

/-- Witness for the amended claim C3, at the concrete commit-phase
native return `-1`. -/
theorem c3_amended_witness :
    previous_release_fence_fd (-1) = none ∧
    present_fence_fd (-1) = present_fence_fd noFenceNativeReturn :=
  ⟨(c3_amended_phase_mismatch_maps_to_none (-1) rfl).2.1,
   (c3_amended_phase_mismatch_maps_to_none (-1) rfl).2.2.1⟩

/-- Claim C4 counterexample: staging calls never return an error to the
caller (their error component is always `none`), and a transaction or
surface control whose creation failed does not exist as a value at all
(`new` / `create` return `none`), so no staging call on it can return
anything — the claimed explicit staging-time error does not exist in the
code. -/
theorem c4_staging_returns_no_error_cex :
    SurfaceTransaction.new 0 = none ∧
    SurfaceControl.create 0 = none ∧
    (tx1.set_visibility sc1 Visibility.Hide).2 = none ∧
    (tx1.set_z_order sc1 0).2 = none :=
  ⟨rfl, rfl, rfl, rfl⟩

/-- Claim C4 (amended): creation failure is surfaced explicitly — `new`
and `create` return `None` exactly when the native layer returns the
null pointer — so a staging call can never be made on a failed
transaction or an invalid node; the staging calls themselves return no
error (their error component is always `none`). -/
theorem c4_amended_creation_failure_explicit :
    (∀ raw : Nat, SurfaceTransaction.new raw = none ↔ raw = 0) ∧
    (∀ raw : Nat, SurfaceControl.create raw = none ↔ raw = 0) ∧
    (∀ (t : SurfaceTransaction) (c : SurfaceControl) (v : Visibility),
      (t.set_visibility c v).2 = none) ∧
    (∀ (t : SurfaceTransaction) (c : SurfaceControl) (z : Int),
      (t.set_z_order c z).2 = none) := by
  refine ⟨?_, ?_, fun _ _ _ => rfl, fun _ _ _ => rfl⟩
  · intro raw
    unfold SurfaceTransaction.new
    split <;> simp_all
  · intro raw
    unfold SurfaceControl.create
    split <;> simp_all

/-- Witness for the amended claim C4, at the concrete null creation
result and a concrete staging call. -/
theorem c4_amended_witness :
    SurfaceTransaction.new 0 = none ∧ (tx1.set_z_order sc1 3).2 = none :=
  ⟨(c4_amended_creation_failure_explicit.1 0).mpr rfl,
   c4_amended_creation_failure_explicit.2.2.2 tx1 sc1 3⟩

/-- Claim C5 counterexample: `acquire_time` is a public operation that
returns the native value unchanged; when no acquire fence was provided
the native layer returns `-1`, and the public method returns that raw
`-1` sentinel. -/
theorem c5_acquire_time_raw_sentinel_cex : acquire_time (-1) = -1 :=
  rfl

/-- Claim C5 (amended): fence descriptors are converted at the boundary
in both directions — `set_buffer` passes `-1` to the native layer
exactly when the caller supplied no fence, and the two fence queries
return `None` exactly when the native layer returns `-1` — but
`acquire_time` forwards the native `-1` sentinel (no acquire fence
provided) to its caller unconverted. -/
theorem c5_amended_fence_sentinel_conversion :
    (∀ f : Option Nat, fenceArg f = -1 ↔ f = none) ∧
    (∀ fd : Int, present_fence_fd fd = none ↔ fd = -1) ∧
    (∀ fd : Int, previous_release_fence_fd fd = none ↔ fd = -1) ∧
    acquire_time (-1) = -1 := by
  refine ⟨?_, ?_, ?_, rfl⟩
  · intro f
    cases f with
    | none => simp [fenceArg]
    | some fd =>
      simp only [fenceArg]
      constructor
      · intro h
        exact absurd h (by omega)
      · intro h
        simp at h
  · intro fd
    unfold present_fence_fd
    split <;> simp_all
  · intro fd
    unfold previous_release_fence_fd
    split <;> simp_all

/-- Witness for the amended claim C5, at the concrete no-fence argument
and the concrete commit-phase native return. -/
theorem c5_amended_witness :
    fenceArg none = -1 ∧ present_fence_fd (-1) = none :=
  ⟨(c5_amended_fence_sentinel_conversion.1 none).mpr rfl,
   (c5_amended_fence_sentinel_conversion.2.1 (-1)).mpr rfl⟩

/-- Claim C8 counterexample: staging `set_scale` with `x_scale = 0`,
`y_scale = 1` returns no error and forwards the non-positive scale
unchanged to the native layer. -/
theorem c8_set_scale_accepts_zero_cex :
    (tx1.set_scale sc1 0 1).2 = none ∧
    (tx1.set_scale sc1 0 1).1 =
      [FfiCall.setScale tx1.ptr sc1.ptr 0 1] :=
  ⟨rfl, rfl⟩

/-- Claim C8 (amended): `set_scale` performs no validation at this
layer — even a non-positive scale factor is silently accepted, no error
is returned, and the values are forwarded unchanged to the native
compositor call. -/
theorem c8_amended_set_scale_forwards :
    ∀ (t : SurfaceTransaction) (c : SurfaceControl) (x y : Rat),
      x ≤ 0 →
        (t.set_scale c x y).2 = none ∧
        (t.set_scale c x y).1 = [FfiCall.setScale t.ptr c.ptr x y] :=
  fun _ _ _ _ _ => ⟨rfl, rfl⟩

/-- Witness for the amended claim C8, at the concrete non-positive
scale `0`. -/
theorem c8_amended_witness :
    (0 : Rat) ≤ 0 ∧ (tx1.set_scale sc1 0 1).2 = none :=
  ⟨le_refl 0, (c8_amended_set_scale_forwards tx1 sc1 0 1 (le_refl 0)).1⟩

/-- Claim C1: for one transaction with callbacks registered before
apply, each registration emits exactly one native registration, and one
submission results in exactly one on-commit invocation (when registered)
and exactly one on-complete invocation (when registered), with the
on-commit invocation observed strictly before the on-complete
invocation. -/
theorem c1_callbacks_exactly_once_ordered :
    ∀ (t : SurfaceTransaction) (ctx : Nat) (rc rC : Bool),
      (t.set_on_commit ctx).length = 1 ∧
      (t.set_on_complete ctx).length = 1 ∧
      (compositorEvents rc rC).count CbEvent.commitFire =
        (if rc then 1 else 0) ∧
      (compositorEvents rc rC).count CbEvent.completeFire =
        (if rC then 1 else 0) ∧
      (rc = true → rC = true →
        compositorEvents rc rC =
          [CbEvent.commitFire, CbEvent.completeFire]) := by
  intro t ctx rc rC
  refine ⟨rfl, rfl, ?_, ?_, ?_⟩ <;>
    cases rc <;> cases rC <;> simp [compositorEvents]

/-- Witness for claim C1: both callbacks registered, the trace is one
commit invocation followed by one complete invocation. -/
theorem c1_witness :
    (compositorEvents true true).count CbEvent.commitFire = 1 ∧
    compositorEvents true true =
      [CbEvent.commitFire, CbEvent.completeFire] :=
  ⟨(c1_callbacks_exactly_once_ordered tx1 0 true true).2.2.1,
   (c1_callbacks_exactly_once_ordered tx1 0 true true).2.2.2.2 rfl rfl⟩

/-- Claim C2: for every registered callback closure and every stats
argument, the trampoline frame never lets an unwind cross into
compositor-owned code — a normally returning closure returns, and a
panicking closure makes the trampoline abort the process. -/
theorem c2_trampoline_never_unwinds :
    ∀ (closure : SurfaceTransactionStats → ClosureOutcome)
      (stats : SurfaceTransactionStats),
      on_complete_trampoline closure stats ≠ BoundaryBehavior.unwinds ∧
      on_commit_trampoline closure stats ≠ BoundaryBehavior.unwinds ∧
      (closure stats = ClosureOutcome.panics →
        on_complete_trampoline closure stats = BoundaryBehavior.aborts) ∧
      (closure stats = ClosureOutcome.panics →
        on_commit_trampoline closure stats = BoundaryBehavior.aborts) := by
  intro closure stats
  unfold on_complete_trampoline on_commit_trampoline abort_on_panic
  cases h : closure stats <;> simp [h]

/-- A concrete stats handle (nonzero native pointer `3`). -/
def stats1 : SurfaceTransactionStats := ⟨3, by decide⟩

/-- Witness for claim C2, at a concrete always-panicking closure and a
concrete stats handle. -/
theorem c2_witness :
    on_complete_trampoline (fun _ => ClosureOutcome.panics) stats1 =
      BoundaryBehavior.aborts ∧
    on_commit_trampoline (fun _ => ClosureOutcome.panics) stats1 ≠
      BoundaryBehavior.unwinds :=
  ⟨(c2_trampoline_never_unwinds (fun _ => ClosureOutcome.panics)
      stats1).2.2.1 rfl,
   (c2_trampoline_never_unwinds (fun _ => ClosureOutcome.panics)
      stats1).2.1⟩

/-- Invariant of reachable fence ledgers: the descriptor is closed at
most once, and only the closed state carries a close. -/
def ledgerOk (s : FenceLedger) : Prop :=
  (s.state ≠ FenceState.closed ∧ s.closeCount = 0) ∨
  (s.state = FenceState.closed ∧ s.closeCount = 1)

/-- A single fence-ownership step preserves the ledger invariant. -/
theorem fenceStep_ok (s s2 : FenceLedger) (op : FenceOp)
    (h : ledgerOk s) (hs : fenceStep s op = some s2) : ledgerOk s2 := by
  obtain ⟨st, n⟩ := s
  have hn : n = 0 ∨ (st = FenceState.closed ∧ n = 1) := by
    rcases h with ⟨_, h0⟩ | ⟨hc, h1⟩
    · exact Or.inl h0
    · exact Or.inr ⟨hc, h1⟩
  cases st <;> cases op <;> simp [fenceStep] at hs <;> subst hs
  · rcases hn with h0 | ⟨hc, _⟩
    · exact Or.inl ⟨by simp, h0⟩
    · cases hc
  · rcases hn with h0 | ⟨hc, _⟩
    · exact Or.inr ⟨rfl, by simp [h0]⟩
    · cases hc
  · rcases hn with h0 | ⟨hc, _⟩
    · exact Or.inl ⟨by simp, h0⟩
    · cases hc
  · rcases hn with h0 | ⟨hc, _⟩
    · exact Or.inr ⟨rfl, by simp [h0]⟩
    · cases hc

/-- Executing any sequence of fence operations preserves the ledger
invariant. -/
theorem fenceExec_ok (ops : List FenceOp) : ∀ (s s2 : FenceLedger),
    ledgerOk s → fenceExec s ops = some s2 → ledgerOk s2 := by
  induction ops with
  | nil =>
    intro s s2 h hs
    simp [fenceExec] at hs
    exact hs ▸ h
  | cons op rest ih =>
    intro s s2 h hs
    cases hstep : fenceStep s op with
    | none => rw [fenceExec, hstep] at hs; exact absurd hs (by simp)
    | some s3 =>
      rw [fenceExec, hstep] at hs
      exact ih s3 s2 (fenceStep_ok s s3 op h hstep) hs

/-- Claim C6: every fence descriptor has a single owner at all times:
starting from a caller-owned fence, any sequence of API operations
closes it at most once; after `set_buffer` moved the fence into the
transaction the caller can no longer close it (the close step is not
expressible), and once closed no further close is expressible, so no
double close is possible through the API. -/
theorem c6_fence_single_owner :
    (∀ (ops : List FenceOp) (s : FenceLedger),
      fenceExec ⟨FenceState.clientOwned, 0⟩ ops = some s →
        s.closeCount ≤ 1) ∧
    (∀ n : Nat,
      fenceStep ⟨FenceState.nativeOwned, n⟩ FenceOp.dropOwnedFd = none) ∧
    (∀ n : Nat,
      fenceStep ⟨FenceState.closed, n⟩ FenceOp.dropOwnedFd = none) := by
  refine ⟨?_, fun n => rfl, fun n => rfl⟩
  intro ops s hs
  have h := fenceExec_ok ops ⟨FenceState.clientOwned, 0⟩ s
    (Or.inl ⟨by simp, rfl⟩) hs
  rcases h with ⟨_, h0⟩ | ⟨_, h1⟩ <;> omega

/-- Witness for claim C6: the full move-in, hand-out, close lifecycle of
one fence ends with exactly one close. -/
theorem c6_witness :
    (⟨FenceState.closed, 1⟩ : FenceLedger).closeCount ≤ 1 :=
  c6_fence_single_owner.1
    [FenceOp.setBufferMove, FenceOp.statsHandOut, FenceOp.dropOwnedFd]
    ⟨FenceState.closed, 1⟩ rfl

/-- Every submission cycle with a registered callback allocates one
closure box and frees none. -/
theorem submitCycleHeap_iterate (n : Nat) :
    submitCycleHeap^[n] ⟨0, 0⟩ = ⟨n, 0⟩ := by
  induction n with
  | zero => rfl
  | succ k ih => rw [Function.iterate_succ_apply', ih]; rfl

/-- Claim C7 (code bug): the closure box handed to the native layer by
`Box::into_raw` is never reclaimed — the trampoline calls through the
raw pointer without `Box::from_raw` and the transaction drop only
deletes the native transaction — so after `n` submission cycles with a
registered callback, `n` closure boxes are still live: memory leaks
across repeated submissions, contrary to the claim that the captured
state is released after the callback fires. -/
theorem c7_callback_box_leaks :
    liveBoxes (submitCycleHeap ⟨0, 0⟩) = 1 ∧
    (∀ n : Nat, liveBoxes (submitCycleHeap^[n] ⟨0, 0⟩) = n) ∧
    trampoline_fire_heap (register_callback_heap ⟨0, 0⟩) =
      register_callback_heap ⟨0, 0⟩ := by
  refine ⟨rfl, ?_, rfl⟩
  intro n
  rw [submitCycleHeap_iterate]
  simp [liveBoxes]

/-- A dropped transaction admits no further lifecycle operations: from a
dead state only the empty sequence executes. -/
theorem txExec_dead (t : SurfaceTransaction) :
    ∀ (ops : List TxOp) (l : List FfiCall) (s : TxState),
      txExec t ⟨false, l⟩ ops = some s → ops = [] ∧ s = ⟨false, l⟩ := by
  intro ops l s hs
  cases ops with
  | nil =>
    simp [txExec] at hs
    exact ⟨rfl, hs.symm⟩
  | cons op rest =>
    cases op <;> simp [txExec, txStep] at hs

/-- The native delete call appears in the log of an executed lifecycle
exactly when it was already there or a drop operation occurred. -/
theorem txExec_delete_mem (t : SurfaceTransaction) (ops : List TxOp) :
    ∀ (log : List FfiCall) (s : TxState),
      txExec t ⟨true, log⟩ ops = some s →
      (FfiCall.deleteTx t.ptr ∈ s.log ↔
        FfiCall.deleteTx t.ptr ∈ log ∨ TxOp.dropOp ∈ ops) := by
  induction ops with
  | nil =>
    intro log s hs
    simp [txExec] at hs
    rw [← hs]
    simp
  | cons op rest ih =>
    intro log s hs
    cases op with
    | applyOp =>
      rw [txExec, txStep] at hs
      have := ih (log ++ t.apply) s hs
      rw [this]
      simp [SurfaceTransaction.apply]
    | dropOp =>
      rw [txExec, txStep] at hs
      obtain ⟨hrest, hsval⟩ := txExec_dead t rest (log ++ t.drop) s hs
      subst hrest
      subst hsval
      simp [SurfaceTransaction.drop]

/-- Repeated application: `n` apply calls on a live transaction leave it
live and emit exactly `n` native apply calls. -/
theorem txExec_replicate_apply (t : SurfaceTransaction) (n : Nat) :
    ∀ log : List FfiCall,
      txExec t ⟨true, log⟩ (List.replicate n TxOp.applyOp) =
        some ⟨true, log ++ List.replicate n (FfiCall.applyTx t.ptr)⟩ := by
  induction n with
  | zero =>
    intro log
    simp [txExec]
  | succ k ih =>
    intro log
    rw [List.replicate_succ, txExec, txStep]
    show txExec t ⟨true, log ++ t.apply⟩ (List.replicate k TxOp.applyOp) =
      some ⟨true, log ++ List.replicate (k + 1) (FfiCall.applyTx t.ptr)⟩
    rw [ih]
    simp [SurfaceTransaction.apply, List.replicate_succ]

/-- Claim C9: `apply` is fire-and-forget and does not consume or free
the transaction object: any number of repeated applies succeeds, leaving
the object live and emitting one native apply call each, and the native
delete call is emitted exactly when the object is explicitly dropped. -/
theorem c9_apply_preserves_transaction :
    ∀ t : SurfaceTransaction,
      (∀ n : Nat,
        txExec t ⟨true, []⟩ (List.replicate n TxOp.applyOp) =
          some ⟨true, List.replicate n (FfiCall.applyTx t.ptr)⟩) ∧
      (∀ (ops : List TxOp) (s : TxState),
        txExec t ⟨true, []⟩ ops = some s →
          (FfiCall.deleteTx t.ptr ∈ s.log ↔ TxOp.dropOp ∈ ops)) := by
  intro t
  constructor
  · intro n
    have := txExec_replicate_apply t n []
    simpa using this
  · intro ops s hs
    have := txExec_delete_mem t ops [] s hs
    simpa using this

/-- Witness for claim C9: two applies on the concrete transaction leave
it live with two native apply calls; an apply followed by a drop emits
the delete call. -/
theorem c9_witness :
    txExec tx1 ⟨true, []⟩ (List.replicate 2 TxOp.applyOp) =
      some ⟨true, List.replicate 2 (FfiCall.applyTx tx1.ptr)⟩ ∧
    (FfiCall.deleteTx tx1.ptr ∈
        ([FfiCall.applyTx tx1.ptr, FfiCall.deleteTx tx1.ptr] :
          List FfiCall) ↔
      TxOp.dropOp ∈ [TxOp.applyOp, TxOp.dropOp]) :=
  ⟨(c9_apply_preserves_transaction tx1).1 2,
   (c9_apply_preserves_transaction tx1).2
     [TxOp.applyOp, TxOp.dropOp]
     ⟨false, [FfiCall.applyTx tx1.ptr, FfiCall.deleteTx tx1.ptr]⟩ rfl⟩

/-- Claim C10: Debug-formatting a stats snapshot is not read-only — it
performs the present-fence query, and for every listed surface control
the acquire-time and previous-release-fence queries (on a commit-phase
snapshot these are exactly the disallowed phase-mismatch queries); a
fence the native layer still owned is handed out and closed when
formatting completes, after which it is no longer obtainable. -/
theorem c10_debug_fmt_consumes_fences :
    ∀ (scs : List Nat) (sc : Nat), sc ∈ scs →
      StatsQuery.getPresentFenceFd ∈ debug_fmt_queries scs ∧
      StatsQuery.getPreviousReleaseFenceFd sc ∈ debug_fmt_queries scs ∧
      StatsQuery.getAcquireTime sc ∈ debug_fmt_queries scs ∧
      debug_fmt_fence ⟨FenceState.nativeOwned, 0⟩ =
        some ⟨FenceState.closed, 1⟩ ∧
      fenceStep ⟨FenceState.closed, 1⟩ FenceOp.statsHandOut = none := by
  intro scs sc hsc
  refine ⟨?_, ?_, ?_, rfl, rfl⟩
  · simp [debug_fmt_queries]
  · simp only [debug_fmt_queries, List.mem_append, List.mem_flatMap]
    exact Or.inr ⟨sc, hsc, by simp⟩
  · simp only [debug_fmt_queries, List.mem_append, List.mem_flatMap]
    exact Or.inr ⟨sc, hsc, by simp⟩

/-- Witness for claim C10, at a concrete one-node stats snapshot. -/
theorem c10_witness :
    StatsQuery.getPreviousReleaseFenceFd 7 ∈ debug_fmt_queries [7] ∧
    debug_fmt_fence ⟨FenceState.nativeOwned, 0⟩ =
      some ⟨FenceState.closed, 1⟩ :=
  ⟨(c10_debug_fmt_consumes_fences [7] 7 (by simp)).2.1,
   (c10_debug_fmt_consumes_fences [7] 7 (by simp)).2.2.2.1⟩
